import Mathlib

/-!
Shallow embedding of `main.go` of holys/lgtm-gitlab: a GitLab webhook
listener that counts "LGTM" comments per merge request and accepts the
merge request via the GitLab API once the count reaches a quorum of 2.

The embedding mirrors the source:
* the constants of lines 26-39;
* the comment-event payload fields the core reads (struct `Comment`);
* `checkLgtm` (lines 113-154): classification, the mutex-guarded
  read-increment-write of the `lgtmCount` map, and the merge trigger;
* `acceptMergeRequest` (lines 156-193): the outbound request it builds
  and the log classification of the response;
* the HTTP handler `LGTM` (lines 80-111): content-type check, body
  presence, JSON decode, and the 200/400 responses.

The Go map `map[int]int` is embedded as `Int → Option Nat` (absent key =
`none`).  Go's `strings.ToUpper` is embedded as `goToUpper`; the two
agree on ASCII input, which covers every comparison the program makes
(the keyword "LGTM" is ASCII).  Network I/O is embedded by returning a
description of the outbound request instead of performing it, and the
JSON decoder is embedded as an abstract decode result carried by the
inbound request.  The mutex makes each read-increment-write of the map
atomic, so a concurrent execution is embedded as a sequence of atomic
`lgtmIncrement` critical sections.
-/

/-- Go `strings.ToUpper` (main.go line 125), embedded as character-wise
uppercasing.  The program only compares against the ASCII keyword
"LGTM", and on ASCII input Go's Unicode mapping and `Char.toUpper`
agree character by character. -/
def goToUpper (s : String) : String := String.mk (s.data.map Char.toUpper)

/-- Quorum constant `ValidLGTMCount = 2` (main.go line 27). -/
def ValidLGTMCount : Nat := 2

/-- `ObjectNote = "note"` (main.go line 35). -/
def ObjectNote : String := "note"

/-- `NoteableTypeMergeRequest = "MergeRequest"` (main.go line 36). -/
def NoteableTypeMergeRequest : String := "MergeRequest"

/-- `NoteLGTM = "LGTM"` (main.go line 37). -/
def NoteLGTM : String := "LGTM"

/-- `StatusCanbeMerged = "can_be_merged"` (main.go line 38). -/
def StatusCanbeMerged : String := "can_be_merged"

/-- Message of `ErrInvalidRequest` (main.go line 31). -/
def ErrInvalidRequestMsg : String := "invalid request body"

/-- Message of `ErrInvalidContentType` (main.go line 32). -/
def ErrInvalidContentTypeMsg : String := "invalid content type"

/-- `RespOK = []byte("OK")` (main.go line 33). -/
def RespOK : String := "OK"

/-- `merge_params` subobject of the event payload (main.go lines 270-272). -/
structure MergeParams where
  forceRemoveSourceBranch : Bool
deriving DecidableEq, Repr

/-- The fields of the `merge_request` subobject that the core reads
(main.go lines 250-272): `id`, `merge_status`, `merge_params`. -/
structure MergeRequest where
  id : Int
  mergeStatus : String
  mergeParams : MergeParams
deriving DecidableEq, Repr

/-- The fields of `object_attributes` that the core reads
(main.go lines 220-243): `note` and `noteable_type`. -/
structure ObjectAttributes where
  note : String
  noteableType : String
deriving DecidableEq, Repr

/-- The fields of a GitLab comment event that `checkLgtm` reads
(main.go lines 196-322). -/
structure Comment where
  objectKind : String
  projectID : Int
  objectAttributes : ObjectAttributes
  mergeRequest : MergeRequest
deriving DecidableEq, Repr

/-- The global counter map `lgtmCount : map[int]int` (main.go line 44),
embedded as a function from merge-request id to optional count. -/
def LgtmCount : Type := Int → Option Nat

/-- The empty map `make(map[int]int)` (main.go line 44). -/
def emptyLgtmCount : LgtmCount := fun _ => none

/-- Go map assignment `lgtmCount[k] = v`: point update, all other keys
unchanged. -/
def mapUpdate (m : LgtmCount) (k : Int) (v : Nat) : LgtmCount :=
  fun x => if x = k then some v else m x

/-- The arguments of a call to `acceptMergeRequest` (main.go line 150). -/
structure MergeCall where
  projectID : Int
  mergeRequestID : Int
  shouldRemoveSourceBranch : Bool
deriving DecidableEq, Repr

/-- The mutex-guarded critical section of `checkLgtm` (main.go lines
134-144): read the count for `id`, increment (or insert 1), write back,
and report whether the new count reached the quorum.  The mutex makes
this block atomic; it is the unit of interleaving for concurrent events. -/
def lgtmIncrement (m : LgtmCount) (id : Int) : LgtmCount × Bool :=
  match m id with
  | some count =>
      let newCount := count + 1
      (mapUpdate m id newCount, decide (ValidLGTMCount ≤ newCount))
  | none => (mapUpdate m id 1, false)

/-- `checkLgtm` (main.go lines 113-154).  Returns the updated counter map
and the merge-trigger invocation, if any: `some call` exactly when the
source reaches line 150 and calls `acceptMergeRequest`. -/
def checkLgtm (m : LgtmCount) (comment : Comment) : LgtmCount × Option MergeCall :=
  if comment.objectKind ≠ ObjectNote then (m, none)
  else if comment.objectAttributes.noteableType ≠ NoteableTypeMergeRequest then (m, none)
  else if goToUpper comment.objectAttributes.note ≠ NoteLGTM then (m, none)
  else
    let res := lgtmIncrement m comment.mergeRequest.id
    if res.2 && (comment.mergeRequest.mergeStatus == StatusCanbeMerged) then
      (res.1, some ⟨comment.projectID, comment.mergeRequest.id,
                    comment.mergeRequest.mergeParams.forceRemoveSourceBranch⟩)
    else (res.1, none)

/-- The classification of `checkLgtm` lines 115-128: the three guards an
event must pass to reach the counter update. -/
def Qualifies (comment : Comment) : Prop :=
  comment.objectKind = ObjectNote ∧
  comment.objectAttributes.noteableType = NoteableTypeMergeRequest ∧
  goToUpper comment.objectAttributes.note = NoteLGTM

instance (comment : Comment) : Decidable (Qualifies comment) := by
  unfold Qualifies; infer_instance

/-- The count the critical section writes for key `id`: the previous
count plus one if present, else 1 (main.go lines 135-143). -/
def newCountAt (m : LgtmCount) (id : Int) : Nat :=
  match m id with
  | some count => count + 1
  | none => 1

/-- The count `checkLgtm` writes for the event's merge-request id. -/
def newCountOf (m : LgtmCount) (comment : Comment) : Nat :=
  newCountAt m comment.mergeRequest.id

/-- Sequential processing of a list of events through `checkLgtm`,
returning the final counter map. -/
def processAll (m : LgtmCount) : List Comment → LgtmCount
  | [] => m
  | comment :: rest => processAll (checkLgtm m comment).1 rest

/-- Sequential processing of a list of events, collecting every
merge-trigger invocation in order. -/
def mergeCallsAll (m : LgtmCount) : List Comment → List MergeCall
  | [] => []
  | comment :: rest =>
      let r := checkLgtm m comment
      r.2.toList ++ mergeCallsAll r.1 rest

/-- The number of qualifying events for merge-request id `t` in a list. -/
def qualCount (t : Int) (cs : List Comment) : Nat :=
  (cs.filter (fun c => decide (Qualifies c) && (c.mergeRequest.id == t))).length

/-- The outbound merge request `acceptMergeRequest` builds
(main.go lines 156-174): method, path, and JSON body. -/
structure OutboundRequest where
  method : String
  path : String
  body : String
deriving DecidableEq, Repr

/-- `fmt.Sprintf("/api/v3/projects/%d/merge_requests/%d/merge", ...)`
(main.go line 166). -/
def mergePath (projectID mergeRequestID : Int) : String :=
  "/api/v3/projects/" ++ toString projectID ++ "/merge_requests/" ++
    toString mergeRequestID ++ "/merge"

/-- `json.Marshal` of a single-key `map[string]string` (main.go lines
157-160): the object with that key and string value. -/
def jsonObjectOfPair (key value : String) : String :=
  "\x7b\"" ++ key ++ "\":\"" ++ value ++ "\"\x7d"

/-- `acceptMergeRequest` (main.go lines 156-174), embedded as the
outbound PUT request it constructs.  The body always carries the literal
string "true" (line 158); the `shouldRemoveSourceBranch` argument is
never read. -/
def acceptMergeRequest (projectID : Int) (mergeRequestID : Int)
    ( shouldRemoveSourceBranch : Bool) : OutboundRequest :=
  { method := "PUT"
    path := mergePath projectID mergeRequestID
    body := jsonObjectOfPair "should_remove_source_branch" "true" }

/-- Outcome of the outbound merge call (main.go lines 176-192): either a
transport-level failure from `http.DefaultClient.Do`, or a response with
a status code. -/
inductive MergeHTTPResult where
  | transportError (msg : String)
  | response (statusCode : Nat)
deriving DecidableEq, Repr

/-- The log entry `acceptMergeRequest` produces for a call outcome
(main.go lines 176-192): a transport error is logged at line 178; the
switch at lines 182-192 logs statuses 200, 405 and 406 and has no
default case, so any other status produces no log entry. -/
def acceptMergeRequestLog : MergeHTTPResult → Option String
  | .transportError msg => some ("execute request error:" ++ msg)
  | .response statusCode =>
      if statusCode = 200 then some "accept merge request successfully."
      else if statusCode = 405 then some "it has some conflicts and can not be merged"
      else if statusCode = 406 then some "merge request is already merged or closed"
      else none

/-- The decode outcome of the inbound request body
(`json.NewDecoder(r.Body).Decode`, main.go line 105), embedded
abstractly: the decoder either yields a `Comment` or fails. -/
inductive BodyDecode where
  | ok (comment : Comment)
  | failed (msg : String)
deriving DecidableEq, Repr

/-- The parts of an inbound webhook request that the handler reads:
the Content-Type header, and the body (`none` embeds `r.Body == nil`,
main.go line 99). -/
structure InboundRequest where
  contentType : String
  body : Option BodyDecode
deriving DecidableEq, Repr

/-- The response the handler writes: status code and body text. -/
structure HttpResponse where
  status : Nat
  body : String
deriving DecidableEq, Repr

/-- The webhook handler `LGTM` (main.go lines 80-111): rejects a
non-"application/json" Content-Type, a nil body, and a failed decode
with 400 and `"error occurs:" ++ message` (the deferred block, lines
84-93); otherwise runs `checkLgtm` and answers 200 `OK`. -/
def LGTM (m : LgtmCount) (r : InboundRequest) : HttpResponse × LgtmCount :=
  if r.contentType ≠ "application/json" then
    (⟨400, "error occurs:" ++ ErrInvalidContentTypeMsg⟩, m)
  else
    match r.body with
    | none => (⟨400, "error occurs:" ++ ErrInvalidRequestMsg⟩, m)
    | some (.failed msg) => (⟨400, "error occurs:" ++ msg⟩, m)
    | some (.ok comment) => (⟨200, RespOK⟩, (checkLgtm m comment).1)

/-- A sample qualifying event: lowercase "lgtm" comment on merge request
42 of project 7, reported mergeable. -/
def sampleLgtm : Comment :=
  { objectKind := "note"
    projectID := 7
    objectAttributes := { note := "lgtm", noteableType := "MergeRequest" }
    mergeRequest :=
      { id := 42
        mergeStatus := "can_be_merged"
        mergeParams := { forceRemoveSourceBranch := false } } }

/-- A sample non-qualifying event (`object_kind = "issue"`). -/
def sampleIssue : Comment :=
  { objectKind := "issue"
    projectID := 7
    objectAttributes := { note := "lgtm", noteableType := "MergeRequest" }
    mergeRequest :=
      { id := 42
        mergeStatus := "can_be_merged"
        mergeParams := { forceRemoveSourceBranch := false } } }

/-- The sample qualifying event with the comment text replaced. -/
def withNote (note : String) : Comment :=
  { sampleLgtm with objectAttributes := { note := note, noteableType := "MergeRequest" } }


/-! ### Structural lemmas about the embedding -/

theorem mapUpdate_same (m : LgtmCount) (k : Int) (v : Nat) : mapUpdate m k v k = some v := by
  simp [mapUpdate]

theorem mapUpdate_other (m : LgtmCount) (k : Int) (v : Nat) (j : Int) (h : j ≠ k) :
    mapUpdate m k v j = m j := by
  simp [mapUpdate, h]

theorem newCountAt_getD (m : LgtmCount) (id : Int) :
    newCountAt m id = (m id).getD 0 + 1 := by
  cases h : m id <;> simp [newCountAt, h]

theorem lgtmIncrement_eq (m : LgtmCount) (id : Int) :
    lgtmIncrement m id =
      (mapUpdate m id (newCountAt m id), decide (ValidLGTMCount ≤ newCountAt m id)) := by
  cases h : m id <;> simp [lgtmIncrement, newCountAt, h, ValidLGTMCount]

theorem ite_pair {α β : Type} (c : Prop) [Decidable c] (a : α) (x y : β) :
    (if c then (a, x) else (a, y)) = (a, if c then x else y) := by
  by_cases h : c <;> simp [h]

theorem checkLgtm_eq (m : LgtmCount) (comment : Comment) :
    checkLgtm m comment =
      ((if Qualifies comment then
          mapUpdate m comment.mergeRequest.id (newCountOf m comment)
        else m),
       (if Qualifies comment ∧ ValidLGTMCount ≤ newCountOf m comment ∧
            comment.mergeRequest.mergeStatus = StatusCanbeMerged then
          some ⟨comment.projectID, comment.mergeRequest.id,
                comment.mergeRequest.mergeParams.forceRemoveSourceBranch⟩
        else none)) := by
  by_cases h1 : comment.objectKind = ObjectNote
  · by_cases h2 : comment.objectAttributes.noteableType = NoteableTypeMergeRequest
    · by_cases h3 : goToUpper comment.objectAttributes.note = NoteLGTM
      · have hq : Qualifies comment := ⟨h1, h2, h3⟩
        by_cases h5 : ValidLGTMCount ≤ newCountOf m comment
        · by_cases h4 : comment.mergeRequest.mergeStatus = StatusCanbeMerged
          · simp [checkLgtm, h1, h2, h3, hq, h4, h5, lgtmIncrement_eq, newCountOf, ite_pair]
          · simp [checkLgtm, h1, h2, h3, hq, h4, h5, lgtmIncrement_eq, newCountOf, ite_pair]
        · simp [checkLgtm, h1, h2, h3, hq, h5, lgtmIncrement_eq, newCountOf, ite_pair]
      · have hq : ¬ Qualifies comment := fun q => h3 q.2.2
        simp [checkLgtm, h1, h2, h3, hq]
    · have hq : ¬ Qualifies comment := fun q => h2 q.2.1
      simp [checkLgtm, h1, h2, hq]
  · have hq : ¬ Qualifies comment := fun q => h1 q.1
    simp [checkLgtm, h1, hq]

theorem checkLgtm_fst (m : LgtmCount) (comment : Comment) :
    (checkLgtm m comment).1 =
      if Qualifies comment then
        mapUpdate m comment.mergeRequest.id (newCountOf m comment)
      else m := by
  rw [checkLgtm_eq]

theorem checkLgtm_snd (m : LgtmCount) (comment : Comment) :
    (checkLgtm m comment).2 =
      if Qualifies comment ∧ ValidLGTMCount ≤ newCountOf m comment ∧
          comment.mergeRequest.mergeStatus = StatusCanbeMerged then
        some ⟨comment.projectID, comment.mergeRequest.id,
              comment.mergeRequest.mergeParams.forceRemoveSourceBranch⟩
      else none := by
  rw [checkLgtm_eq]

theorem qualFilterPred (t : Int) (c : Comment) :
    ((decide (Qualifies c) && (c.mergeRequest.id == t)) = true) ↔
      (Qualifies c ∧ c.mergeRequest.id = t) := by
  simp

theorem qualCount_cons (t : Int) (c : Comment) (cs : List Comment) :
    qualCount t (c :: cs) =
      (if Qualifies c ∧ c.mergeRequest.id = t then 1 else 0) + qualCount t cs := by
  by_cases h : Qualifies c ∧ c.mergeRequest.id = t
  · simp [qualCount, List.filter_cons, (qualFilterPred t c).mpr h, h, Nat.add_comm]
  · have hp : ¬((decide (Qualifies c) && (c.mergeRequest.id == t)) = true) :=
      fun hc => h ((qualFilterPred t c).mp hc)
    simp [qualCount, List.filter_cons, hp, h]

theorem processAll_getD (cs : List Comment) :
    ∀ (m : LgtmCount) (t : Int),
      (processAll m cs t).getD 0 = (m t).getD 0 + qualCount t cs := by
  induction cs with
  | nil => intro m t; simp [processAll, qualCount]
  | cons c rest ih =>
    intro m t
    rw [processAll, ih, qualCount_cons, checkLgtm_fst]
    by_cases hq : Qualifies c
    · by_cases hid : c.mergeRequest.id = t
      · subst hid
        rw [if_pos hq, if_pos ⟨hq, rfl⟩, mapUpdate_same]
        simp [newCountOf, newCountAt_getD]
        omega
      · rw [if_pos hq, if_neg (fun hand => hid hand.2),
            mapUpdate_other _ _ _ _ (fun ht => hid ht.symm)]
        omega
    · rw [if_neg hq, if_neg (fun hand => hq hand.1)]
      omega

theorem processAll_eq_none (cs : List Comment) :
    ∀ (m : LgtmCount) (t : Int),
      (processAll m cs t = none ↔ (m t = none ∧ qualCount t cs = 0)) := by
  induction cs with
  | nil => intro m t; simp [processAll, qualCount]
  | cons c rest ih =>
    intro m t
    rw [processAll, ih, qualCount_cons, checkLgtm_fst]
    by_cases hq : Qualifies c
    · by_cases hid : c.mergeRequest.id = t
      · subst hid
        rw [if_pos hq, if_pos ⟨hq, rfl⟩, mapUpdate_same]
        simp
      · rw [if_pos hq, if_neg (fun hand => hid hand.2),
            mapUpdate_other _ _ _ _ (fun ht => hid ht.symm)]
        simp
    · rw [if_neg hq, if_neg (fun hand => hq hand.1)]
      simp

theorem processAll_empty (cs : List Comment) (t : Int) :
    processAll emptyLgtmCount cs t =
      if qualCount t cs = 0 then none else some (qualCount t cs) := by
  by_cases h : qualCount t cs = 0
  · rw [if_pos h]
    exact (processAll_eq_none cs emptyLgtmCount t).mpr ⟨rfl, h⟩
  · rw [if_neg h]
    have hne : ¬ processAll emptyLgtmCount cs t = none := fun hn =>
      h ((processAll_eq_none cs emptyLgtmCount t).mp hn).2
    cases hv : processAll emptyLgtmCount cs t with
    | none => exact absurd hv hne
    | some v =>
      have hgd := processAll_getD cs emptyLgtmCount t
      rw [hv] at hgd
      simp [emptyLgtmCount] at hgd
      rw [hgd]

/-! ### Claim theorems -/

/-- C1: for every comment event processed by `checkLgtm`, the merge
trigger (`acceptMergeRequest`) is invoked if and only if the event
qualifies, the approval count stored for the event's merge-request id
immediately after this event's increment is at least `ValidLGTMCount`
(= 2), and the event's `merge_status` equals "can_be_merged"; in
particular it is never invoked when the post-increment count is 1. -/
theorem checkLgtm_trigger_iff (m : LgtmCount) (comment : Comment) :
    ((((checkLgtm m comment).2).isSome = true) ↔
      (Qualifies comment ∧
       (∃ k, (checkLgtm m comment).1 comment.mergeRequest.id = some k ∧
             ValidLGTMCount ≤ k) ∧
       comment.mergeRequest.mergeStatus = StatusCanbeMerged)) ∧
    (newCountOf m comment = 1 → (checkLgtm m comment).2 = none) := by
  constructor
  · constructor
    · intro hsome
      rw [checkLgtm_snd] at hsome
      by_cases hP : Qualifies comment ∧ ValidLGTMCount ≤ newCountOf m comment ∧
          comment.mergeRequest.mergeStatus = StatusCanbeMerged
      · refine ⟨hP.1, ⟨newCountOf m comment, ?_, hP.2.1⟩, hP.2.2⟩
        rw [checkLgtm_fst, if_pos hP.1, mapUpdate_same]
      · rw [if_neg hP] at hsome
        exact absurd hsome (by simp)
    · rintro ⟨hq, ⟨k, hk, hk2⟩, hs⟩
      rw [checkLgtm_fst, if_pos hq, mapUpdate_same] at hk
      have hkeq : newCountOf m comment = k := Option.some.inj hk
      rw [checkLgtm_snd, if_pos ⟨hq, by rw [hkeq]; exact hk2, hs⟩]
      rfl
  · intro h1
    rw [checkLgtm_snd]
    apply if_neg
    rintro ⟨-, hge, -⟩
    rw [h1] at hge
    exact absurd hge (by norm_num [ValidLGTMCount])

/-- C1 witness: a first approval on a fresh merge request (post-increment
count 1) does not invoke the trigger even though the event is mergeable. -/
theorem checkLgtm_trigger_iff_witness :
    (checkLgtm emptyLgtmCount sampleLgtm).2 = none :=
  (checkLgtm_trigger_iff emptyLgtmCount sampleLgtm).2 (by decide)

/-- C2: an event changes the counter map iff it qualifies, and it
qualifies iff `object_kind = "note"`, `noteable_type = "MergeRequest"`
and the uppercased comment text equals "LGTM" exactly; "lgtm", "LGTM"
and "LgTm" qualify, while "lgtm!" and "lgtm " do not. -/
theorem checkLgtm_qualify_iff :
    (∀ (m : LgtmCount) (comment : Comment),
        ((checkLgtm m comment).1 = m ↔ ¬ Qualifies comment)) ∧
    (∀ comment : Comment, Qualifies comment ↔
        (comment.objectKind = "note" ∧
         comment.objectAttributes.noteableType = "MergeRequest" ∧
         goToUpper comment.objectAttributes.note = "LGTM")) ∧
    Qualifies (withNote "lgtm") ∧ Qualifies (withNote "LGTM") ∧
    Qualifies (withNote "LgTm") ∧
    ¬ Qualifies (withNote "lgtm!") ∧ ¬ Qualifies (withNote "lgtm ") := by
  refine ⟨?_, fun comment => Iff.rfl, by decide, by decide, by decide, by decide, by decide⟩
  intro m comment
  rw [checkLgtm_fst]
  by_cases hq : Qualifies comment
  · rw [if_pos hq]
    simp only [hq, not_true, iff_false]
    intro heq
    have hpt := congrFun heq comment.mergeRequest.id
    rw [mapUpdate_same] at hpt
    cases hm : m comment.mergeRequest.id with
    | none => rw [hm] at hpt; exact Option.noConfusion hpt
    | some k =>
        rw [hm] at hpt
        have hk : newCountOf m comment = k := Option.some.inj hpt
        have hk1 : newCountOf m comment = k + 1 := by simp [newCountOf, newCountAt, hm]
        omega
  · rw [if_neg hq]
    simp [hq]

/-- C2 witness: a non-qualifying event (issue comment) leaves the map
unchanged. -/
theorem checkLgtm_qualify_iff_witness :
    (checkLgtm emptyLgtmCount sampleIssue).1 = emptyLgtmCount :=
  (checkLgtm_qualify_iff.1 emptyLgtmCount sampleIssue).mpr (by decide)

/-- C3: for a qualifying event the counter update maps an absent id to
count 1 and an existing count c to c + 1 and touches no other key;
after any sequence of sequentially processed events each id's count is
exactly the number of qualifying events seen for that id. -/
theorem checkLgtm_counter_correct :
    (∀ (m : LgtmCount) (comment : Comment), Qualifies comment →
        ((m comment.mergeRequest.id = none →
            (checkLgtm m comment).1 comment.mergeRequest.id = some 1) ∧
         (∀ c, m comment.mergeRequest.id = some c →
            (checkLgtm m comment).1 comment.mergeRequest.id = some (c + 1)) ∧
         (∀ j, j ≠ comment.mergeRequest.id → (checkLgtm m comment).1 j = m j))) ∧
    (∀ (cs : List Comment) (t : Int),
        processAll emptyLgtmCount cs t =
          if qualCount t cs = 0 then none else some (qualCount t cs)) := by
  constructor
  · intro m comment hq
    rw [checkLgtm_fst, if_pos hq]
    refine ⟨?_, ?_, ?_⟩
    · intro hnone
      rw [mapUpdate_same]
      simp [newCountOf, newCountAt, hnone]
    · intro c hc
      rw [mapUpdate_same]
      simp [newCountOf, newCountAt, hc]
    · intro j hj
      exact mapUpdate_other _ _ _ _ hj
  · exact processAll_empty

/-- C3 witness: one qualifying event inserts count 1; two qualifying
events for merge request 42 yield count 2. -/
theorem checkLgtm_counter_correct_witness :
    (checkLgtm emptyLgtmCount sampleLgtm).1 42 = some 1 ∧
      processAll emptyLgtmCount [sampleLgtm, sampleLgtm] 42 = some 2 := by
  constructor
  · exact (checkLgtm_counter_correct.1 emptyLgtmCount sampleLgtm (by decide)).1 rfl
  · have h := checkLgtm_counter_correct.2 [sampleLgtm, sampleLgtm] 42
    rw [h]
    decide

theorem mergeCallsAll_replicate (e : Comment) (hq : Qualifies e)
    (hs : e.mergeRequest.mergeStatus = StatusCanbeMerged) :
    ∀ (n : Nat) (m : LgtmCount) (k : Nat),
      m e.mergeRequest.id = some k → 1 ≤ k →
      (mergeCallsAll m (List.replicate n e)).length = n := by
  intro n
  induction n with
  | zero =>
    intro m k hm hk
    simp [mergeCallsAll]
  | succ n ih =>
    intro m k hm hk
    have hge : ValidLGTMCount ≤ newCountOf m e := by
      have hnc : newCountOf m e = k + 1 := by simp [newCountOf, newCountAt, hm]
      rw [hnc, ValidLGTMCount]
      omega
    have hsnd : (checkLgtm m e).2 =
        some ⟨e.projectID, e.mergeRequest.id, e.mergeRequest.mergeParams.forceRemoveSourceBranch⟩ := by
      rw [checkLgtm_snd, if_pos ⟨hq, hge, hs⟩]
    have hfst : (checkLgtm m e).1 e.mergeRequest.id = some (k + 1) := by
      rw [checkLgtm_fst, if_pos hq, mapUpdate_same]
      simp [newCountOf, newCountAt, hm]
    rw [List.replicate_succ]
    simp only [mergeCallsAll]
    rw [hsnd]
    simp only [Option.toList_some, List.singleton_append, List.length_cons]
    rw [ih (checkLgtm m e).1 (k + 1) hfst (by omega)]

/-- C4 counterexample: three qualifying, mergeable approval events for
merge request 42 invoke the merge trigger twice, refuting at-most-once
triggering per target. -/
theorem mergeCalls_trigger_twice :
    mergeCallsAll emptyLgtmCount [sampleLgtm, sampleLgtm, sampleLgtm] =
      [⟨7, 42, false⟩, ⟨7, 42, false⟩] ∧
    (List.filter (fun call => call.mergeRequestID == 42)
        (mergeCallsAll emptyLgtmCount [sampleLgtm, sampleLgtm, sampleLgtm])).length = 2 := by
  decide

/-- C4 (amended): the merge trigger fires on every qualifying mergeable
event past the first one for a target, not at most once: n + 1 such
events produce exactly n trigger invocations. -/
theorem mergeCalls_replicate_count (n : Nat) (e : Comment)
    (hq : Qualifies e) (hs : e.mergeRequest.mergeStatus = StatusCanbeMerged) :
    (mergeCallsAll emptyLgtmCount (List.replicate (n + 1) e)).length = n := by
  have hsnd : (checkLgtm emptyLgtmCount e).2 = none := by
    rw [checkLgtm_snd]
    apply if_neg
    rintro ⟨-, hge, -⟩
    have h1 : newCountOf emptyLgtmCount e = 1 := by
      simp [newCountOf, newCountAt, emptyLgtmCount]
    rw [h1] at hge
    exact absurd hge (by norm_num [ValidLGTMCount])
  have hfst : (checkLgtm emptyLgtmCount e).1 e.mergeRequest.id = some 1 := by
    rw [checkLgtm_fst, if_pos hq, mapUpdate_same]
    simp [newCountOf, newCountAt, emptyLgtmCount]
  rw [List.replicate_succ]
  simp only [mergeCallsAll]
  rw [hsnd]
  simp only [Option.toList_none, List.nil_append]
  exact mergeCallsAll_replicate e hq hs n _ 1 hfst (by omega)

/-- C4 witness: three qualifying mergeable events yield two trigger
invocations. -/
theorem mergeCalls_replicate_count_witness :
    (mergeCallsAll emptyLgtmCount (List.replicate 3 sampleLgtm)).length = 2 :=
  mergeCalls_replicate_count 2 sampleLgtm (by decide) (by decide)

/-- C5: each `checkLgtm` step either leaves the counter map unchanged or
increases exactly one key's count by one; no present key is removed or
decreased; and every count reachable from the empty map is at least 1. -/
theorem checkLgtm_monotone :
    (∀ (m : LgtmCount) (comment : Comment),
        (checkLgtm m comment).1 = m ∨
        (∃ k, (checkLgtm m comment).1 k = some ((m k).getD 0 + 1) ∧
              ∀ j, j ≠ k → (checkLgtm m comment).1 j = m j)) ∧
    (∀ (m : LgtmCount) (comment : Comment) (j : Int) (n : Nat),
        m j = some n → ∃ x, (checkLgtm m comment).1 j = some x ∧ n ≤ x) ∧
    (∀ (cs : List Comment) (t : Int) (n : Nat),
        processAll emptyLgtmCount cs t = some n → 1 ≤ n) := by
  refine ⟨?_, ?_, ?_⟩
  · intro m comment
    by_cases hq : Qualifies comment
    · right
      refine ⟨comment.mergeRequest.id, ?_, ?_⟩
      · rw [checkLgtm_fst, if_pos hq, mapUpdate_same]
        simp [newCountOf, newCountAt_getD]
      · intro j hj
        rw [checkLgtm_fst, if_pos hq]
        exact mapUpdate_other _ _ _ _ hj
    · left
      rw [checkLgtm_fst, if_neg hq]
  · intro m comment j n hm
    by_cases hq : Qualifies comment
    · by_cases hj : j = comment.mergeRequest.id
      · subst hj
        refine ⟨n + 1, ?_, by omega⟩
        rw [checkLgtm_fst, if_pos hq, mapUpdate_same]
        simp [newCountOf, newCountAt, hm]
      · refine ⟨n, ?_, le_refl n⟩
        rw [checkLgtm_fst, if_pos hq, mapUpdate_other _ _ _ _ hj]
        exact hm
    · refine ⟨n, ?_, le_refl n⟩
      rw [checkLgtm_fst, if_neg hq]
      exact hm
  · intro cs t n hn
    rw [processAll_empty] at hn
    by_cases h : qualCount t cs = 0
    · rw [if_pos h] at hn
      exact Option.noConfusion hn
    · rw [if_neg h] at hn
      have := Option.some.inj hn
      omega

/-- C5 witness: a present key is never decreased by a step. -/
theorem checkLgtm_monotone_witness :
    ∃ x, (checkLgtm (mapUpdate emptyLgtmCount 42 1) sampleLgtm).1 42 = some x ∧ 1 ≤ x :=
  checkLgtm_monotone.2.1 (mapUpdate emptyLgtmCount 42 1) sampleLgtm 42 1 (by decide)

/-- C6: every invocation of `acceptMergeRequest` produces a PUT request
whose path is "/api/v3/projects/{projectID}/merge_requests/{mergeRequestID}/merge"
and whose body is the JSON object with key `should_remove_source_branch`
and the literal string value "true", independently of the
`shouldRemoveSourceBranch` argument. -/
theorem acceptMergeRequest_request (projectID mergeRequestID : Int) (b : Bool) :
    (acceptMergeRequest projectID mergeRequestID b).method = "PUT" ∧
    (acceptMergeRequest projectID mergeRequestID b).path =
      "/api/v3/projects/" ++ toString projectID ++ "/merge_requests/" ++
        toString mergeRequestID ++ "/merge" ∧
    (acceptMergeRequest projectID mergeRequestID b).body =
      "\x7b\"should_remove_source_branch\":\"true\"\x7d" ∧
    acceptMergeRequest projectID mergeRequestID b =
      acceptMergeRequest projectID mergeRequestID (!b) := by
  exact ⟨rfl, rfl, rfl, rfl⟩

/-- C7: the handler answers 200 "OK" exactly on a JSON content type with
a decodable body (whether or not the comment qualifies), and 400 with a
plain-text error message, leaving the counter map unchanged, on a wrong
content type, a nil body, or a decode failure. -/
theorem LGTM_response_spec (m : LgtmCount) (r : InboundRequest) :
    (∀ comment : Comment, r.contentType = "application/json" →
        r.body = some (BodyDecode.ok comment) →
        ((LGTM m r).1 = ⟨200, "OK"⟩ ∧ (LGTM m r).2 = (checkLgtm m comment).1)) ∧
    ((r.contentType ≠ "application/json" ∨ r.body = none ∨
        (∃ msg, r.body = some (BodyDecode.failed msg))) →
      ((LGTM m r).1.status = 400 ∧
       (∃ msg, (LGTM m r).1.body = "error occurs:" ++ msg) ∧
       (LGTM m r).2 = m)) := by
  constructor
  · intro comment hct hb
    constructor
    · simp [LGTM, hct, hb, RespOK]
    · simp [LGTM, hct, hb]
  · intro hbad
    by_cases hct : r.contentType = "application/json"
    · rcases hbad with h | h | ⟨msg, h⟩
      · exact absurd hct h
      · have hLGTM : LGTM m r = (⟨400, "error occurs:" ++ ErrInvalidRequestMsg⟩, m) := by
          simp [LGTM, hct, h]
        rw [hLGTM]
        exact ⟨rfl, ⟨ErrInvalidRequestMsg, rfl⟩, rfl⟩
      · have hLGTM : LGTM m r = (⟨400, "error occurs:" ++ msg⟩, m) := by
          simp [LGTM, hct, h]
        rw [hLGTM]
        exact ⟨rfl, ⟨msg, rfl⟩, rfl⟩
    · have hLGTM : LGTM m r = (⟨400, "error occurs:" ++ ErrInvalidContentTypeMsg⟩, m) := by
        simp [LGTM, hct]
      rw [hLGTM]
      exact ⟨rfl, ⟨ErrInvalidContentTypeMsg, rfl⟩, rfl⟩

/-- C7 witness: a request with a non-JSON content type gets a 400 error
response and leaves the counter map unchanged. -/
theorem LGTM_response_spec_witness :
    (LGTM emptyLgtmCount ⟨"text/plain", some (BodyDecode.ok sampleLgtm)⟩).1.status = 400 ∧
    (∃ msg, (LGTM emptyLgtmCount ⟨"text/plain", some (BodyDecode.ok sampleLgtm)⟩).1.body =
        "error occurs:" ++ msg) ∧
    (LGTM emptyLgtmCount ⟨"text/plain", some (BodyDecode.ok sampleLgtm)⟩).2 = emptyLgtmCount :=
  (LGTM_response_spec emptyLgtmCount ⟨"text/plain", some (BodyDecode.ok sampleLgtm)⟩).2
    (Or.inl (by decide))

/-- C8 counterexample: a response status other than 200, 405 and 406
(here 500) produces no log entry at all, contrary to the claim that any
other status is logged as an error. -/
theorem acceptMergeRequestLog_500_silent :
    acceptMergeRequestLog (MergeHTTPResult.response 500) = none ∧
    ¬((500 : Nat) = 200 ∨ (500 : Nat) = 405 ∨ (500 : Nat) = 406) := by
  decide

/-- C8 (amended): a transport-level failure is logged as an error, and
statuses 200, 405 and 406 are logged as success, conflict, and already
merged or closed respectively; any other response status produces no log
entry; in no case is an error propagated or retried. -/
theorem acceptMergeRequestLog_classification :
    (∀ msg, acceptMergeRequestLog (MergeHTTPResult.transportError msg) =
        some ("execute request error:" ++ msg)) ∧
    acceptMergeRequestLog (MergeHTTPResult.response 200) =
      some "accept merge request successfully." ∧
    acceptMergeRequestLog (MergeHTTPResult.response 405) =
      some "it has some conflicts and can not be merged" ∧
    acceptMergeRequestLog (MergeHTTPResult.response 406) =
      some "merge request is already merged or closed" ∧
    (∀ code : Nat, code ≠ 200 → code ≠ 405 → code ≠ 406 →
        acceptMergeRequestLog (MergeHTTPResult.response code) = none) := by
  refine ⟨fun msg => rfl, by decide, by decide, by decide, ?_⟩
  intro code h1 h2 h3
  simp [acceptMergeRequestLog, h1, h2, h3]

/-- C8 witness: status 502 is silent and a transport failure is logged. -/
theorem acceptMergeRequestLog_classification_witness :
    acceptMergeRequestLog (MergeHTTPResult.response 502) = none ∧
    acceptMergeRequestLog (MergeHTTPResult.transportError "connection refused") =
      some "execute request error:connection refused" :=
  ⟨acceptMergeRequestLog_classification.2.2.2.2 502 (by decide) (by decide) (by decide),
   acceptMergeRequestLog_classification.1 "connection refused"⟩

theorem qualCount_all (cs : List Comment) (t : Int)
    (h : ∀ c ∈ cs, Qualifies c ∧ c.mergeRequest.id = t) :
    qualCount t cs = cs.length := by
  have hfil : cs.filter (fun c => decide (Qualifies c) && (c.mergeRequest.id == t)) = cs :=
    List.filter_eq_self.mpr (fun c hc => (qualFilterPred t c).mpr (h c hc))
  rw [qualCount, hfil]

/-- C9: with every increment performed atomically under the mutex, any
sequence of N qualifying events for the same target id leaves that id's
counter at exactly N, and this is invariant under permutation of the
events (no interleaving loses an update). -/
theorem concurrent_count_exact (cs : List Comment) (t : Int)
    (hall : ∀ c ∈ cs, Qualifies c ∧ c.mergeRequest.id = t) (hne : cs ≠ []) :
    processAll emptyLgtmCount cs t = some cs.length ∧
    (∀ cs2 : List Comment, cs2.Perm cs →
        processAll emptyLgtmCount cs2 t = some cs2.length) := by
  have main : ∀ ds : List Comment,
      (∀ c ∈ ds, Qualifies c ∧ c.mergeRequest.id = t) → ds ≠ [] →
      processAll emptyLgtmCount ds t = some ds.length := by
    intro ds hds hdne
    have hlen : ¬ ds.length = 0 := fun h0 => hdne (List.length_eq_zero.mp h0)
    rw [processAll_empty, qualCount_all ds t hds, if_neg hlen]
  refine ⟨main cs hall hne, ?_⟩
  intro cs2 hperm
  apply main
  · intro c hc
    exact hall c (hperm.mem_iff.mp hc)
  · intro h0
    rw [h0] at hperm
    exact hne hperm.symm.eq_nil

/-- C9 witness: two concurrent qualifying approvals for merge request 42
end with counter 2. -/
theorem concurrent_count_exact_witness :
    processAll emptyLgtmCount [sampleLgtm, sampleLgtm] 42 = some 2 :=
  (concurrent_count_exact [sampleLgtm, sampleLgtm] 42 (by decide) (by decide)).1

/-- C10: the inbound Content-Type check is an exact string comparison
against "application/json": any other header value is rejected with 400
and the counter map is unchanged, whatever the body holds. -/
theorem LGTM_contentType_exact (m : LgtmCount) (r : InboundRequest)
    (h : r.contentType ≠ "application/json") :
    (LGTM m r).1.status = 400 ∧ (LGTM m r).2 = m := by
  simp [LGTM, h]

/-- C10 witness: "application/json; charset=utf-8" with a valid
qualifying body is still rejected and does not change the map. -/
theorem LGTM_contentType_exact_witness :
    (LGTM emptyLgtmCount
        ⟨"application/json; charset=utf-8", some (BodyDecode.ok sampleLgtm)⟩).1.status = 400 ∧
    (LGTM emptyLgtmCount
        ⟨"application/json; charset=utf-8", some (BodyDecode.ok sampleLgtm)⟩).2 = emptyLgtmCount :=
  LGTM_contentType_exact emptyLgtmCount
    ⟨"application/json; charset=utf-8", some (BodyDecode.ok sampleLgtm)⟩ (by decide)
